import Mathlib

/-!
Shallow embedding of `src/my-website/my-website/js/home.js`.

The script is browser glue over the TMDB API and the DOM.  We embed it as
pure functions: network responses become explicit `Except`/structure
arguments, DOM containers become lists of rendered nodes, and the ambient
state (`currentItem`, the server selector, the video frame) becomes an
explicit record threaded through the handlers.

JavaScript conventions used by the source and mirrored here:
* optional/nullable string fields are `Option String`; JS truthiness on such
  a field (`if (!item.poster_path)`, `currentItem.title ? ...`) is
  `truthyStr`: `none` (absent/undefined/null) and `some ""` are falsy;
* `Math.round x` on a real argument is `⌊x + 1/2⌋`, which is Mathlib's
  `round` on `ℚ`;
* string interpolation of a possibly-undefined field renders `undefined`,
  which `jsStr` reproduces.
-/

namespace HomeJs

/-- A TMDB media item as used by the script (section 3 of the design:
fields are optional exactly where the code guards for absence). -/
structure MediaItem where
  id : Nat
  title : Option String
  name : Option String
  media_type : Option String
  original_language : String
  genre_ids : Option (List Int)
  poster_path : Option String
  backdrop_path : Option String
  vote_average : ℚ
  overview : Option String
  deriving DecidableEq, Repr

/-- JS truthiness of an optional string field: absent (`none`) and the
empty string are falsy, every other string is truthy. -/
def truthyStr : Option String → Bool
  | none => false
  | some s => !(s == "")

/-- JS template-literal rendering of a possibly-absent string field:
`undefined` interpolates as the text "undefined". -/
def jsStr : Option String → String
  | none => "undefined"
  | some s => s

/-- JS `a || b` on two optional string fields: the first operand if it is
truthy, otherwise the second. -/
def orVal (a b : Option String) : Option String :=
  if truthyStr a then a else b

/-- The outcome of `await fetch(...)` followed by `await response.json()`:
`response.ok` plus the optional `results` array of the parsed JSON.
A transport error (rejected fetch) is the `Except.error` case at use sites. -/
structure Response where
  ok : Bool
  results : Option (List MediaItem)
  deriving DecidableEq, Repr

/-- `fetchTrending(type)` (home.js lines 18-30): on transport error or a
non-ok HTTP status the `catch` returns `[]`; otherwise `data.results || []`. -/
def fetchTrending (resp : Except Unit Response) : List MediaItem :=
  match resp with
  | .error _ => []
  | .ok r =>
      if r.ok then
        r.results.getD []
      else
        []

/-- The per-item anime filter of `fetchTrendingAnime` (home.js lines 49-52):
`item.original_language === 'ja' && item.genre_ids && item.genre_ids.includes(16)`. -/
def isAnime (item : MediaItem) : Bool :=
  item.original_language == "ja" &&
    (match item.genre_ids with
     | some g => g.contains (16 : Int)
     | none => false)

/-- `fetchTrendingAnime()` (home.js lines 36-61): pages 1..3 sequentially;
each page's `try` block keeps the filtered results if the response is ok and
carries a `results` array, and the `catch` skips just that page. -/
def fetchTrendingAnime (fetchPage : Nat → Except Unit Response) : List MediaItem :=
  (List.range' 1 3).foldl
    (fun allResults page =>
      match fetchPage page with
      | .error _ => allResults
      | .ok r =>
          if r.ok then
            match r.results with
            | some rs => allResults ++ rs.filter isAnime
            | none => allResults  -- `data.results.filter` throws; caught, page skipped
          else
            allResults)  -- `throw new Error(...)` caught, page skipped
    []

/-- What one page contributes to `fetchTrendingAnime`'s concatenation: a
failed page (transport error, non-ok status, or missing `results`)
contributes nothing, a successful page its anime-filtered items. -/
def pageKept (resp : Except Unit Response) : List MediaItem :=
  match resp with
  | .error _ => []
  | .ok r =>
      if r.ok then
        match r.results with
        | some rs => rs.filter isAnime
        | none => []
      else
        []

/-- `'${API_CONFIG.IMG_URL}'` (home.js line 5). -/
def IMG_URL : String := "https://image.tmdb.org/t/p/original"

/-- A rendered poster `<img>` element: its attributes and the item its
click / Enter / Space handlers pass to `showDetails` (home.js lines 92-107). -/
structure ImgElement where
  src : String
  alt : String
  role : String
  tabindex : String
  clickItem : MediaItem
  deriving DecidableEq, Repr

/-- The element `displayList` builds for one item (home.js lines 92-107). -/
def renderPoster (item : MediaItem) : ImgElement :=
  { src := IMG_URL ++ jsStr item.poster_path
    alt := "Poster for " ++ jsStr (orVal item.title item.name)
    role := "button"
    tabindex := "0"
    clickItem := item }

/-- `hasPosterPath item` is the truthiness test `!item.poster_path`
guarding the skip at home.js line 90, negated. -/
def hasPosterPath (item : MediaItem) : Bool :=
  truthyStr item.poster_path

/-- `displayList(items, containerId)` (home.js lines 84-111): a missing
container is a no-op; otherwise the container is cleared
(`container.innerHTML = ''`) and one poster image is appended per item whose
`poster_path` is truthy, in input order. The container argument is the
container's child list before the call (`none` = no such element). -/
def displayList (items : List MediaItem) (container : Option (List ImgElement)) :
    Option (List ImgElement) :=
  match container with
  | none => none
  | some _ =>
      some (items.foldl
        (fun acc item =>
          if hasPosterPath item then acc ++ [renderPoster item] else acc)
        [])

/-- One character repeated `n` times, as `'c'.repeat(n)` builds it. -/
def repeatChar (c : Char) (n : Nat) : String :=
  ⟨List.replicate n c⟩

/-- `renderRating(voteAverage)` (home.js lines 118-122):
`Math.round(voteAverage / 2)` filled stars followed by `5 - that` empty
stars.  JS `Math.round x = ⌊x + 1/2⌋`, which is Mathlib's `round`; the
`Int.toNat` coercions are exact for scores in the 0..10 range the API
delivers (outside it, JS `String.repeat` would throw on a negative count). -/
def renderRating (voteAverage : ℚ) : String :=
  repeatChar '★' (round (voteAverage / 2)).toNat ++
    repeatChar '☆' (5 - round (voteAverage / 2)).toNat

/-- The mutable state the modal controller touches: the selected item
(`currentItem`, home.js line 9), the `#server` selector's current value and
the `#modal-video` iframe's `src`. -/
structure AppState where
  currentItem : Option MediaItem
  serverValue : String
  modalVideoSrc : String
  deriving DecidableEq, Repr

/-- The movie/tv disambiguation of `changeServer` (home.js line 159):
`(currentItem.media_type === "movie" || currentItem.title) ? "movie" : "tv"`. -/
def itemKind (item : MediaItem) : String :=
  if item.media_type == some "movie" || truthyStr item.title then "movie" else "tv"

/-- `changeServer()` (home.js lines 154-172): a no-op when no item is
selected; otherwise builds one of three provider URL templates (or the
initial `""` for an unrecognised provider) and assigns it to the video
frame's `src`. -/
def changeServer (st : AppState) : AppState :=
  match st.currentItem with
  | none => st
  | some item =>
      let type := itemKind item
      let embedURL :=
        if st.serverValue == "vidsrc.cc" then
          "https://vidsrc.cc/v2/embed/" ++ type ++ "/" ++ toString item.id
        else if st.serverValue == "vidsrc.net" then
          "https://vidsrc.net/embed/" ++ type ++ "/?tmdb=" ++ toString item.id
        else if st.serverValue == "player.videasy.net" then
          "https://player.videasy.net/" ++ type ++ "/" ++ toString item.id
        else
          ""
      { st with modalVideoSrc := embedURL }

/-- A child of the `#search-results` container: either an appended poster
image or literal HTML assigned via `innerHTML`. -/
inductive SearchNode where
  | img (el : ImgElement)
  | html (s : String)
  deriving DecidableEq, Repr

/-- The literal no-results message of home.js line 249. -/
def noResultsLit : String :=
  "<p class=\"no-results-message\">No results found. Try a different search term.</p>"

/-- The literal error message of home.js line 254. -/
def errorLit : String :=
  "<p class=\"error-message\">Could not perform search. Please try again.</p>"

/-- The whitespace class JS `String.prototype.trim` strips: ASCII blanks
plus the common Unicode blanks (NBSP, BOM); ample for this page's inputs. -/
def jsWhitespace (c : Char) : Bool :=
  c == ' ' || c == '\t' || c == '\n' || c == '\r' ||
    c == '\x0b' || c == '\x0c' || c == '\u00A0' || c == '\uFEFF'

/-- JS `value.trim()` (home.js line 206): strip leading and trailing
whitespace. -/
def jsTrim (s : String) : String :=
  ⟨((s.data.dropWhile jsWhitespace).reverse.dropWhile jsWhitespace).reverse⟩

/-- The keep/skip test of `searchTMDB` (home.js line 223), negated: an item
is kept unless it is person-typed, or lacks (in the truthiness sense) both
poster and backdrop, or lacks both title and name. -/
def searchKeep (item : MediaItem) : Bool :=
  !(item.media_type == some "person" ||
    (!truthyStr item.poster_path && !truthyStr item.backdrop_path) ||
    (!truthyStr item.title && !truthyStr item.name))

/-- The `<img>` built for one kept search result (home.js lines 225-243);
same shape as the list posters (its click handler additionally closes the
search overlay before `showDetails(item)`). -/
def renderSearchImg (item : MediaItem) : ImgElement :=
  { src := IMG_URL ++ jsStr item.poster_path
    alt := "Poster for " ++ jsStr (orVal item.title item.name)
    role := "button"
    tabindex := "0"
    clickItem := item }

/-- What a call to `searchTMDB` did: whether `fetch` was invoked, and the
`#search-results` container's children afterwards. -/
structure SearchOutcome where
  issuedRequest : Bool
  container : List SearchNode
  deriving DecidableEq, Repr

/-- `searchTMDB()` (home.js lines 205-256).  `inputVal` is the raw
`#search-input` value, `prev` the container's children before the call, and
`resp` the outcome the network would deliver.  The container is cleared
(line 208) before the blank-query early return (lines 210-212); a blank
query issues no request.  Otherwise: transport error, non-ok status, or a
missing `results` array all land in the `catch` and render the literal
error message; an ok response renders the kept results, or the literal
no-results message when none survive the filter. -/
def searchTMDB (inputVal : String) (prev : List SearchNode)
    (resp : Except Unit Response) : SearchOutcome :=
  let query := jsTrim inputVal
  -- container.innerHTML = '' happens unconditionally before the query test
  if query == "" then
    { issuedRequest := false, container := [] }
  else
    match resp with
    | .error _ => { issuedRequest := true, container := [.html errorLit] }
    | .ok r =>
        if r.ok then
          match r.results with
          | none =>
              -- `data.results.forEach` throws; caught, error message rendered
              { issuedRequest := true, container := [.html errorLit] }
          | some results =>
              let kept := results.filter searchKeep
              if kept.isEmpty then
                { issuedRequest := true, container := [.html noResultsLit] }
              else
                { issuedRequest := true,
                  container := kept.map (fun it => .img (renderSearchImg it)) }
        else
          { issuedRequest := true, container := [.html errorLit] }

/-- What `init()` (home.js lines 263-287) renders: the banner's item (when
the movie list is non-empty) and the three poster lists. -/
structure InitResult where
  bannerItem : Option MediaItem
  moviesList : Option (List ImgElement)
  tvshowsList : Option (List ImgElement)
  animeList : Option (List ImgElement)
  deriving DecidableEq, Repr

/-- `init()` (home.js lines 263-287): joins the three fetches, picks a
random movie for the banner (`pick` stands for the random draw; the index
`⌊random * length⌋` is some value below `movies.length`), and renders the
three lists into their containers (assumed present and empty on load). -/
def init (respMovie respTv : Except Unit Response)
    (animePages : Nat → Except Unit Response) (pick : Nat) : InitResult :=
  let movies := fetchTrending respMovie
  let tvShows := fetchTrending respTv
  let anime := fetchTrendingAnime animePages
  { bannerItem := if movies.length > 0 then movies[pick % movies.length]? else none
    moviesList := displayList movies (some [])
    tvshowsList := displayList tvShows (some [])
    animeList := displayList anime (some []) }

/-! ## Render layer: `renderRating` -/

/-- The characters of `renderRating v`: the filled run followed by the
empty run. -/
theorem renderRating_data (v : ℚ) :
    (renderRating v).data =
      List.replicate (round (v / 2)).toNat '★' ++
        List.replicate (5 - round (v / 2)).toNat '☆' := rfl

/-- C2: `renderRating` maps a 0-10 score to five glyphs by halving and
rounding half up: `renderRating 10` has 5 filled glyphs and 0 empty,
`renderRating 0` has 0 filled and 5 empty, and `renderRating 7` has 4
filled (`round (7/2) = round 3.5 = 4`) and 1 empty. -/
theorem renderRating_examples :
    (renderRating 10).data.count '★' = 5 ∧ (renderRating 10).data.count '☆' = 0 ∧
    (renderRating 0).data.count '★' = 0 ∧ (renderRating 0).data.count '☆' = 5 ∧
    round ((7 : ℚ) / 2) = 4 ∧
    (renderRating 7).data.count '★' = 4 ∧ (renderRating 7).data.count '☆' = 1 := by
  have h10 : round ((10 : ℚ) / 2) = 5 := by norm_num [round_eq]
  have h0 : round ((0 : ℚ) / 2) = 0 := by norm_num [round_eq]
  have h7 : round ((7 : ℚ) / 2) = 4 := by norm_num [round_eq]
  refine ⟨?_, ?_, ?_, ?_, h7, ?_, ?_⟩ <;>
    simp only [renderRating_data, h10, h0, h7] <;> decide

/-- C9: for every voteAverage between 0 and 10, `renderRating` returns a
string of exactly 5 glyphs: the filled count is at most 5 and filled plus
empty glyphs add up to 5. -/
theorem renderRating_five_glyphs (v : ℚ) (h0 : 0 ≤ v) (h10 : v ≤ 10) :
    (renderRating v).data.length = 5 ∧
    (renderRating v).data.count '★' + (renderRating v).data.count '☆' = 5 ∧
    (renderRating v).data.count '★' ≤ 5 := by
  have hr0 : (0 : ℤ) ≤ round (v / 2) := by
    rw [round_eq]
    exact Int.floor_nonneg.mpr (by nlinarith)
  have hr5 : round (v / 2) ≤ 5 := by
    rw [round_eq]
    calc ⌊v / 2 + 1 / 2⌋ ≤ ⌊(11 : ℚ) / 2⌋ := Int.floor_le_floor (by nlinarith)
    _ = 5 := by norm_num
  refine ⟨?_, ?_, ?_⟩ <;>
    simp +decide only [renderRating_data, List.length_append,
      List.length_replicate, List.count_append, List.count_replicate,
      if_true, if_false] <;>
    omega

/-- Witness for C9 at the concrete score 8. -/
theorem renderRating_five_glyphs_witness :
    (renderRating 8).data.length = 5 ∧
    (renderRating 8).data.count '★' + (renderRating 8).data.count '☆' = 5 ∧
    (renderRating 8).data.count '★' ≤ 5 :=
  renderRating_five_glyphs 8 (by norm_num) (by norm_num)

/-! ## Modal controller: `changeServer` -/

/-- A movie item (has `media_type` "movie" and a title) for the witnesses. -/
def movieItemEx : MediaItem :=
  { id := 603
    title := some "The Matrix"
    name := none
    media_type := some "movie"
    original_language := "en"
    genre_ids := some [28, 878]
    poster_path := some "/pMovie.jpg"
    backdrop_path := some "/bMovie.jpg"
    vote_average := 8
    overview := some "A hacker learns the truth." }

/-- A TV item (has a name, no title, `media_type` "tv") for the witnesses. -/
def tvItemEx : MediaItem :=
  { id := 1396
    title := none
    name := some "Breaking Bad"
    media_type := some "tv"
    original_language := "en"
    genre_ids := some [18, 80]
    poster_path := some "/pTv.jpg"
    backdrop_path := some "/bTv.jpg"
    vote_average := 9
    overview := some "A chemistry teacher turns to crime." }

/-- C4: with an item selected, `changeServer` derives the kind flag
"movie" exactly when the item has `media_type` "movie" or carries a
(truthy) title, and "tv" otherwise; with provider "vidsrc.cc" a movie item
of id N gets the video frame URL `https://vidsrc.cc/v2/embed/movie/N`, and
a TV item (name, no title, not movie-typed) gets
`https://vidsrc.cc/v2/embed/tv/N`. -/
theorem changeServer_vidsrc_cc (st : AppState) (item : MediaItem)
    (hsel : st.currentItem = some item) (hsrv : st.serverValue = "vidsrc.cc") :
    (itemKind item = "movie" ↔
      (item.media_type = some "movie" ∨ truthyStr item.title = true)) ∧
    (itemKind item = "tv" ↔
      ¬ (item.media_type = some "movie" ∨ truthyStr item.title = true)) ∧
    ((item.media_type = some "movie" ∨ truthyStr item.title = true) →
      (changeServer st).modalVideoSrc =
        "https://vidsrc.cc/v2/embed/movie/" ++ toString item.id) ∧
    (item.media_type ≠ some "movie" → truthyStr item.title = false →
      truthyStr item.name = true →
      (changeServer st).modalVideoSrc =
        "https://vidsrc.cc/v2/embed/tv/" ++ toString item.id) := by
  by_cases hb : (item.media_type == some "movie" || truthyStr item.title) = true
  · have hprop : item.media_type = some "movie" ∨ truthyStr item.title = true := by
      simpa [beq_iff_eq] using hb
    have hkind : itemKind item = "movie" := by simp [itemKind, hb]
    refine ⟨by simp [hkind, hprop], by simp [hkind, hprop], fun _ => ?_, ?_⟩
    · simp only [changeServer, hsel, hsrv, hkind]
      simp
    · rintro hmt ht _
      rcases hprop with h | h
      · exact absurd h hmt
      · exact absurd h (by simp [ht])
  · have hprop : ¬ (item.media_type = some "movie" ∨ truthyStr item.title = true) := by
      simpa [beq_iff_eq] using hb
    have hkind : itemKind item = "tv" := by simp [itemKind, hb]
    refine ⟨by simp [hkind, hprop], by simp [hkind, hprop],
      fun h => absurd h hprop, fun _ _ _ => ?_⟩
    simp only [changeServer, hsel, hsrv, hkind]
    simp

/-- Witness for C4: the selected movie item of id 603 with provider
"vidsrc.cc" yields the movie embed URL. -/
theorem changeServer_vidsrc_cc_witness :
    (changeServer
        { currentItem := some movieItemEx
          serverValue := "vidsrc.cc"
          modalVideoSrc := "" }).modalVideoSrc =
      "https://vidsrc.cc/v2/embed/movie/" ++ toString movieItemEx.id :=
  (changeServer_vidsrc_cc _ movieItemEx rfl rfl).2.2.1 (Or.inl rfl)

/-- C8: when no item is selected, `changeServer` leaves the whole state
(video frame source included) unchanged. -/
theorem changeServer_no_selection (st : AppState) (h : st.currentItem = none) :
    changeServer st = st := by
  simp [changeServer, h]

/-- Witness for C8 at a concrete state with no selection. -/
theorem changeServer_no_selection_witness :
    changeServer
        { currentItem := none
          serverValue := "vidsrc.cc"
          modalVideoSrc := "previous" } =
      { currentItem := none
        serverValue := "vidsrc.cc"
        modalVideoSrc := "previous" } :=
  changeServer_no_selection _ rfl

/-- C10: with an item selected and a provider other than the three
recognised ones, `changeServer` assigns the empty string to the video
frame's source. -/
theorem changeServer_unknown_provider (st : AppState) (item : MediaItem)
    (hsel : st.currentItem = some item)
    (h1 : st.serverValue ≠ "vidsrc.cc") (h2 : st.serverValue ≠ "vidsrc.net")
    (h3 : st.serverValue ≠ "player.videasy.net") :
    (changeServer st).modalVideoSrc = "" := by
  simp [changeServer, hsel, beq_iff_eq, h1, h2, h3]

/-- Witness for C10 at a concrete unrecognised provider value. -/
theorem changeServer_unknown_provider_witness :
    (changeServer
        { currentItem := some movieItemEx
          serverValue := "example.org"
          modalVideoSrc := "previous" }).modalVideoSrc = "" :=
  changeServer_unknown_provider _ movieItemEx rfl (by decide) (by decide) (by decide)

/-! ## Render layer: `displayList` -/

/-- The append-per-kept-item loop of `displayList`, run from any
accumulator, produces the accumulator followed by the filtered items'
posters in input order. -/
theorem displayList_foldl (items : List MediaItem) (acc : List ImgElement) :
    items.foldl
        (fun acc item =>
          if hasPosterPath item then acc ++ [renderPoster item] else acc)
        acc
      = acc ++ (items.filter hasPosterPath).map renderPoster := by
  induction items generalizing acc with
  | nil => simp
  | cons x xs ih =>
      by_cases h : hasPosterPath x = true <;>
        simp [List.filter_cons, h, ih, List.append_assoc]

/-- C5: on an existing container, `displayList` replaces the previous
contents (whatever they were) with exactly one poster image per item whose
poster path is present (truthy), in input order; the rendered count equals
the count of input items with a poster path, and poster-less items
contribute nothing. -/
theorem displayList_renders_posters (items : List MediaItem) (prev : List ImgElement) :
    displayList items (some prev)
        = some ((items.filter hasPosterPath).map renderPoster) ∧
    ∃ rendered, displayList items (some prev) = some rendered ∧
      rendered.length = (items.filter hasPosterPath).length := by
  have h : displayList items (some prev)
      = some ((items.filter hasPosterPath).map renderPoster) := by
    simp [displayList, displayList_foldl]
  exact ⟨h, _, h, by simp⟩

/-! ## Fetch layer: `fetchTrendingAnime` -/

/-- One iteration of the `fetchTrendingAnime` page loop appends exactly
that page's kept items to the accumulator. -/
theorem fetchTrendingAnime_step (acc : List MediaItem) (resp : Except Unit Response) :
    (match resp with
      | .error _ => acc
      | .ok r =>
          if r.ok then
            match r.results with
            | some rs => acc ++ rs.filter isAnime
            | none => acc
          else
            acc)
      = acc ++ pageKept resp := by
  rcases resp with _ | r
  · simp [pageKept]
  · rcases hres : r.results with _ | rs <;>
      by_cases hok : r.ok = true <;>
      simp [pageKept, hres, hok]

/-- C3: `fetchTrendingAnime` issues the three page requests 1, 2, 3 and
returns the per-page kept items concatenated in page order, where a failed
page keeps nothing (so the other pages' items are still returned) and a
successful page keeps exactly its items with `original_language` "ja" and
genre 16; in particular every returned item is "ja" with genre 16, and an
item with language "ja" but without genre 16 is never returned. -/
theorem fetchTrendingAnime_spec (fetchPage : Nat → Except Unit Response) :
    fetchTrendingAnime fetchPage
        = ((List.range' 1 3).map fun page => pageKept (fetchPage page)).flatten ∧
    (fetchTrendingAnime fetchPage).all isAnime = true ∧
    (∀ item : MediaItem, isAnime item = true ↔
      (item.original_language = "ja" ∧
        ∃ g, item.genre_ids = some g ∧ (16 : Int) ∈ g)) := by
  have heq : fetchTrendingAnime fetchPage
      = ((List.range' 1 3).map fun page => pageKept (fetchPage page)).flatten := by
    show (List.range' 1 3).foldl _ [] = _
    simp only [List.range', List.foldl_cons, List.foldl_nil, List.map_cons,
      List.map_nil, List.flatten_cons, List.flatten_nil,
      fetchTrendingAnime_step]
    simp [List.append_assoc]
  have hkept : ∀ resp, ∀ item ∈ pageKept resp, isAnime item = true := by
    intro resp item hmem
    rcases resp with _ | r
    · simp [pageKept] at hmem
    · rcases hres : r.results with _ | rs <;>
        by_cases hok : r.ok = true <;>
        simp [pageKept, hres, hok] at hmem
      exact hmem.2
  refine ⟨heq, ?_, ?_⟩
  · rw [heq, List.all_eq_true]
    intro item hmem
    rw [List.mem_flatten] at hmem
    obtain ⟨l, hl, hitem⟩ := hmem
    rw [List.mem_map] at hl
    obtain ⟨page, _, rfl⟩ := hl
    exact hkept (fetchPage page) item hitem
  · intro item
    rcases hg : item.genre_ids with _ | g <;>
      simp [isAnime, hg, beq_iff_eq, List.elem_iff]

/-! ## Fetch layer and bootstrap: `fetchTrending` and `init` -/

/-- C6: `fetchTrending` converts every failure mode (transport error or
non-ok HTTP status) into the empty array instead of a thrown result, and in
`init` each of the three rendered lists is exactly the rendering of its own
fetch, whatever the other two fetches returned — so one fetch's failure
never prevents the other two lists from being rendered. -/
theorem fetchTrending_failure_isolated :
    fetchTrending (.error ()) = [] ∧
    (∀ r : Response, r.ok = false → fetchTrending (.ok r) = []) ∧
    (∀ respMovie respTv : Except Unit Response,
      ∀ animePages : Nat → Except Unit Response, ∀ pick : Nat,
      (init respMovie respTv animePages pick).moviesList
          = displayList (fetchTrending respMovie) (some []) ∧
      (init respMovie respTv animePages pick).tvshowsList
          = displayList (fetchTrending respTv) (some []) ∧
      (init respMovie respTv animePages pick).animeList
          = displayList (fetchTrendingAnime animePages) (some [])) := by
  refine ⟨rfl, fun r h => ?_, fun rm rt ap pick => ⟨rfl, rfl, rfl⟩⟩
  simp [fetchTrending, h]

/-- Witness for C6: a non-ok HTTP response yields the empty array. -/
theorem fetchTrending_failure_isolated_witness :
    fetchTrending (.ok { ok := false, results := some [movieItemEx] }) = [] :=
  fetchTrending_failure_isolated.2.1 { ok := false, results := some [movieItemEx] } rfl

/-! ## Search controller: `searchTMDB` -/

/-- C7: for a query that is non-empty after
trimming, `searchTMDB` renders the literal error message on a transport
failure, a non-ok HTTP status, or a response without a `results` array;
with an ok response it keeps exactly the results that are not person-typed,
have a truthy poster or backdrop, and a truthy title or name — rendering
the literal no-results message when none survive and the kept posters
otherwise. -/
theorem searchTMDB_nonblank (inputVal : String) (prev : List SearchNode)
    (h : ¬ jsTrim inputVal = "") :
    (searchTMDB inputVal prev (.error ())).container = [.html errorLit] ∧
    (∀ r : Response, r.ok = false →
      (searchTMDB inputVal prev (.ok r)).container = [.html errorLit]) ∧
    (searchTMDB inputVal prev (.ok { ok := true, results := none })).container
        = [.html errorLit] ∧
    (∀ results : List MediaItem,
      (searchTMDB inputVal prev
          (.ok { ok := true, results := some results })).container
        = if (results.filter searchKeep).isEmpty then [.html noResultsLit]
          else (results.filter searchKeep).map fun it => .img (renderSearchImg it)) ∧
    (∀ item : MediaItem, searchKeep item = true ↔
      (¬ item.media_type = some "person" ∧
        (truthyStr item.poster_path = true ∨ truthyStr item.backdrop_path = true) ∧
        (truthyStr item.title = true ∨ truthyStr item.name = true))) := by
  refine ⟨?_, fun r hr => ?_, ?_, fun results => ?_, fun item => ?_⟩
  · simp [searchTMDB, beq_iff_eq, h]
  · simp [searchTMDB, beq_iff_eq, h, hr]
  · simp [searchTMDB, beq_iff_eq, h]
  · by_cases hk : (results.filter searchKeep).isEmpty = true <;>
      simp [searchTMDB, beq_iff_eq, h, hk]
  · cases hmt : (item.media_type == some "person") <;>
      cases hp : truthyStr item.poster_path <;>
      cases hbd : truthyStr item.backdrop_path <;>
      cases ht : truthyStr item.title <;>
      cases hn : truthyStr item.name <;>
      simp_all [searchKeep, beq_iff_eq, beq_eq_false_iff_ne]

/-- Witness for C7: a transport failure on the query "batman" renders the
literal error message. -/
theorem searchTMDB_nonblank_witness :
    (searchTMDB "batman" [] (.error ())).container = [.html errorLit] :=
  (searchTMDB_nonblank "batman" [] (by decide)).1

/-- C1 counterexample: calling `searchTMDB` with the whitespace-only input
"   " while the results container holds earlier content issues no request
but does NOT leave the container unchanged — the container is cleared
before the blank-query check (home.js line 208 precedes lines 210-212). -/
theorem searchTMDB_blank_clears_cex :
    (searchTMDB "   " [.html "<p>earlier results</p>"] (.error ())).issuedRequest
        = false ∧
    (searchTMDB "   " [.html "<p>earlier results</p>"] (.error ())).container
        ≠ [.html "<p>earlier results</p>"] := by
  constructor
  · decide
  · decide

/-- C1 as amended: for every input that trims to the empty string,
`searchTMDB` returns without issuing any network request and leaves the
search-results container empty (its prior content is cleared). -/
theorem searchTMDB_blank (inputVal : String) (prev : List SearchNode)
    (resp : Except Unit Response) (h : jsTrim inputVal = "") :
    (searchTMDB inputVal prev resp).issuedRequest = false ∧
    (searchTMDB inputVal prev resp).container = [] := by
  simp [searchTMDB, beq_iff_eq, h]

/-- Witness for the amended C1 at the whitespace-only input "  ". -/
theorem searchTMDB_blank_witness :
    (searchTMDB "  " [.html "<p>earlier results</p>"] (.ok { ok := true, results := some [] })).issuedRequest
        = false ∧
    (searchTMDB "  " [.html "<p>earlier results</p>"] (.ok { ok := true, results := some [] })).container
        = [] :=
  searchTMDB_blank "  " [.html "<p>earlier results</p>"]
    (.ok { ok := true, results := some [] }) (by decide)

end HomeJs
